import Mathlib

/-
Shallow embedding of src/dashboard_modular/pages/02_Contract_Summary.py:
the contract-summary pipeline (source resolution and session fingerprint,
derived financial and time fields, top-5 split, bucket counts, KPI bar
shaping), with pandas float semantics (division by zero yielding signed
infinity or NaN) made explicit.
-/

/-! ### Pandas float values: finite rationals extended with infinities and NaN -/

inductive PFloat where
  | fin : ℚ → PFloat
  | inf : PFloat
  | ninf : PFloat
  | nan : PFloat
deriving DecidableEq, Repr

/-- Float division as numpy/pandas performs it on Series: division by zero
yields signed infinity (NaN for zero over zero), never an exception. -/
def PFloat.div : PFloat → PFloat → PFloat
  | .fin a, .fin b =>
      if b = 0 then (if a = 0 then .nan else if 0 < a then .inf else .ninf)
      else .fin (a / b)
  | .fin _, .inf => .fin 0
  | .fin _, .ninf => .fin 0
  | .inf, .fin b => if 0 ≤ b then .inf else .ninf
  | .ninf, .fin b => if 0 ≤ b then .ninf else .inf
  | _, _ => .nan

/-- Multiplication by the positive constant 100. -/
def PFloat.mul100 : PFloat → PFloat
  | .fin a => .fin (a * 100)
  | .inf => .inf
  | .ninf => .ninf
  | .nan => .nan

/-- Series.clip(0, 1): finite values are clamped, infinities collapse to the
bounds, NaN passes through. -/
def PFloat.clip01 : PFloat → PFloat
  | .fin a => .fin (max 0 (min 1 a))
  | .inf => .fin 1
  | .ninf => .fin 0
  | .nan => .nan

/-- Series.round(1): round to one decimal place; non-finite values pass
through. -/
def PFloat.round1 : PFloat → PFloat
  | .fin a => .fin (((round (a * 10) : ℤ) : ℚ) / 10)
  | .inf => .inf
  | .ninf => .ninf
  | .nan => .nan

/-- pandas isna: NaN is the null marker for float columns; infinities are
not null. -/
def PFloat.isNa : PFloat → Bool
  | .nan => true
  | _ => false

/-- Comparison pct >= 50 under float semantics: true for +inf, false for
NaN and -inf (lines 163 and 313 use this to pick the bar color). -/
def PFloat.ge50 : PFloat → Bool
  | .fin a => decide (50 ≤ a)
  | .inf => true
  | .ninf => false
  | .nan => false

/-! ### Python block structure of the module (claim C1)

Each def header in the module together with the first line of its body,
recorded as (line number, indentation in spaces, whether the line opens a
def). Python requires the first body line after a def header to be indented
strictly deeper than the header. -/

structure PyLine where
  lineno : Nat
  indent : Nat
  isDef : Bool
deriving DecidableEq, Repr

/-- A def header must be followed by a line indented strictly deeper; a def
header with no following line has no body at all. -/
def defBlocksWellFormed : List PyLine → Bool
  | [] => true
  | [l] => !l.isDef
  | l :: l2 :: rest =>
      (if l.isDef then decide (l.indent < l2.indent) else true) &&
        defBlocksWellFormed (l2 :: rest)

/-- The def headers of 02_Contract_Summary.py with the first line of each
body: get_file_hash (17-18), load_excel_from_github (26-27), section_card
(79-80), metric_card (93-94), get_color and build_kpi_bar of the contract
branch (162-163, 166-167), get_color and build_kpi_bar of the financial
branch (312-313, 315-316). On line 313 the return is indented 4 spaces,
the same as its def on line 312. -/
def moduleDefLines : List PyLine :=
  [ ⟨17, 0, true⟩, ⟨18, 4, false⟩,
    ⟨26, 0, true⟩, ⟨27, 4, false⟩,
    ⟨79, 0, true⟩, ⟨80, 4, false⟩,
    ⟨93, 0, true⟩, ⟨94, 4, false⟩,
    ⟨162, 4, true⟩, ⟨163, 8, false⟩,
    ⟨166, 4, true⟩, ⟨167, 8, false⟩,
    ⟨312, 4, true⟩, ⟨313, 4, false⟩,
    ⟨315, 4, true⟩, ⟨316, 8, false⟩ ]

/-! ### Rows of the contract spreadsheet (financial columns) -/

/-- A raw row as the chart-preparation code sees it: the pandas index label
(iterrows yields it as idx), the KONTRAK name, and the two nullable money
columns renamed on lines 236-239 to CONTRACT_VALUE and REALIZATION. -/
structure FinRow where
  label : Nat
  kontrak : String
  contract_value : Option ℚ
  realization : Option ℚ
deriving DecidableEq, Repr

/-- A derived chart row after lines 242-244. -/
structure ChartRow where
  label : Nat
  kontrak : String
  contract_value : ℚ
  realization : ℚ
  remaining : ℚ
  realized_pct : PFloat
deriving DecidableEq, Repr

/-- Lines 242-244: REMAINING = CONTRACT_VALUE - REALIZATION is computed from
the unclipped realization, then REALIZATION and REMAINING are clipped at
lower=0, then REALIZED_PCT = (REALIZATION / CONTRACT_VALUE * 100).round(1)
with no guard on a zero or negative CONTRACT_VALUE. -/
def mkChartRow (label : Nat) (kontrak : String) (cv rv : ℚ) : ChartRow :=
  let rvClipped := max rv 0
  let remClipped := max (cv - rv) 0
  { label := label, kontrak := kontrak, contract_value := cv,
    realization := rvClipped, remaining := remClipped,
    realized_pct := (((PFloat.fin rvClipped).div (PFloat.fin cv)).mul100).round1 }

/-- Line 241: rows whose CONTRACT_VALUE or REALIZATION is null are dropped
before any derivation. -/
def eligible (rows : List FinRow) : List FinRow :=
  rows.filter (fun r => r.contract_value.isSome && r.realization.isSome)

/-- Derivation of a chart row, defined only on rows passing the line-241
null filter. -/
def toChartRow (r : FinRow) : Option ChartRow :=
  match r.contract_value, r.realization with
  | some cv, some rv => some (mkChartRow r.label r.kontrak cv rv)
  | _, _ => none

/-- Descending order on CONTRACT_VALUE (line 245, ascending=False). -/
def cvDesc (a b : ChartRow) : Prop := b.contract_value ≤ a.contract_value

instance : DecidableRel cvDesc :=
  fun a b => inferInstanceAs (Decidable (b.contract_value ≤ a.contract_value))

instance : IsTotal ChartRow cvDesc :=
  ⟨fun a b => le_total b.contract_value a.contract_value⟩

instance : IsTrans ChartRow cvDesc :=
  ⟨fun _ _ _ h1 h2 => le_trans h2 h1⟩

/-- Lines 241-245: filter out null money fields, derive the chart columns,
sort descending by CONTRACT_VALUE. -/
def df_chart (rows : List FinRow) : List ChartRow :=
  List.insertionSort cvDesc (rows.filterMap toChartRow)

/-- Line 248: top5 = df_chart.head(5). -/
def top5 (rows : List FinRow) : List ChartRow := (df_chart rows).take 5

/-- Line 249: others = df_chart.iloc(5:). -/
def others (rows : List FinRow) : List ChartRow := (df_chart rows).drop 5

/-! ### Straight-line control flow of the contract build_kpi_bar (claim C2) -/

/-- The statements of the contract-branch build_kpi_bar body (lines
167-283) in source order: the trace loop (169-210), the layout update
(212-229), return fig (231), then the statements that sit at the same
indentation after the return: the value-column rename (236-239), the null
filter (241), REMAINING (242), the clip (243), REALIZED_PCT (244), the
descending sort (245), the top-5/others split (248-249), the two KPI chart
sections (252-268), and the time-elapsed bucket chart section (274-283). -/
inductive KpiStmt where
  | loopAddTraces
  | updateLayout
  | retFig
  | renameValueCols
  | filterNotNa
  | computeRemaining
  | clipLowerZero
  | computeRealizedPct
  | sortByValueDesc
  | splitTopFive
  | renderTopFiveChart
  | renderOthersChart
  | renderTimeBucketChart
deriving DecidableEq, Repr

def KpiStmt.isReturn : KpiStmt → Bool
  | .retFig => true
  | _ => false

def buildKpiBarBody : List KpiStmt :=
  [ .loopAddTraces, .updateLayout, .retFig,
    .renameValueCols, .filterNotNa, .computeRemaining, .clipLowerZero,
    .computeRealizedPct, .sortByValueDesc, .splitTopFive,
    .renderTopFiveChart, .renderOthersChart, .renderTimeBucketChart ]

/-- Execution trace of a straight-line function body on an input frame:
statements run in source order until the first return statement, which ends
the call. The contract-branch build_kpi_bar has no conditional control
flow, so the executed trace cannot depend on the frame. -/
def execTrace (df : List FinRow) : List KpiStmt → List KpiStmt
  | [] => []
  | s :: rest => if s.isReturn then [s] else s :: execTrace df rest

/-! ### KPI bar shaping (claim C6) -/

/-- One plotly bar trace as added on lines 173-210: label, segment length,
series name, legend group, legend visibility, marker color. -/
structure BarSegment where
  y : String
  x : ℚ
  name : String
  legendgroup : String
  showlegend : Bool
  color : String
deriving DecidableEq, Repr

/-- Lines 162-163: green when the realized percentage is at least 50,
otherwise red. -/
def get_color (pct : PFloat) : String :=
  if pct.ge50 then "#2ECC71" else "#E74C3C"

/-- Lines 169-210: the REALIZED and REMAINING traces added for one row.
showlegend is computed as (idx == 0) where idx is the iterrows index label
of the row, not its position in the frame. -/
def rowSegments (r : ChartRow) : List BarSegment :=
  [ { y := r.kontrak, x := r.realization, name := "REALIZED",
      legendgroup := "realized", showlegend := (r.label == 0),
      color := get_color r.realized_pct },
    { y := r.kontrak, x := r.remaining, name := "REMAINING",
      legendgroup := "remaining", showlegend := (r.label == 0),
      color := "#D0D3D4" } ]

/-- Lines 166-231: the sequence of bar traces build_kpi_bar adds for a
frame, two per row in frame order. -/
def build_kpi_bar (df_subset : List ChartRow) : List BarSegment :=
  (df_subset.map rowSegments).flatten

/-! ### Time-elapsed percentage (claim C4) -/

/-- Line 126: TIME_GONE = ((today - START) / (END - START)).clip(0, 1) * 100.
A null START or END propagates NaN through the timedelta arithmetic; a
zero-length interval divides by a zero timedelta, which yields signed
infinity (NaN when today equals the endpoints), never an error. -/
def timeGone (today : ℚ) (start stop : Option ℚ) : PFloat :=
  match start, stop with
  | some s, some e =>
      ((((PFloat.fin (today - s)).div (PFloat.fin (e - s)))).clip01).mul100
  | _, _ => PFloat.nan

/-! ### Time-elapsed buckets (claim C10) -/

inductive TimeBucket where
  | lt30
  | b30to50
  | b50to80
  | gt80
deriving DecidableEq, Repr

/-- Lines 275-277: pd.cut with bins (-1, 30, 50, 80, 100), right-closed by
default, labels <30%, 30-50%, 50-80%, >80%; values outside every bin map
to no bucket. -/
def bucketOf (x : ℚ) : Option TimeBucket :=
  if -1 < x ∧ x ≤ 30 then some .lt30
  else if 30 < x ∧ x ≤ 50 then some .b30to50
  else if 50 < x ∧ x ≤ 80 then some .b50to80
  else if 80 < x ∧ x ≤ 100 then some .gt80
  else none

/-- pd.cut applied to a float value: NaN and infinities fall in no bucket. -/
def bucketOfP : PFloat → Option TimeBucket
  | .fin q => bucketOf q
  | _ => none

/-- Lines 279-280: value_counts on the categorical TIME_GONE_CAT column
followed by sort_index keeps all four categories in category order, with
count 0 for an empty bucket. -/
def bucketCounts (xs : List PFloat) : List (TimeBucket × Nat) :=
  [ (.lt30, xs.countP (fun x => decide (bucketOfP x = some .lt30))),
    (.b30to50, xs.countP (fun x => decide (bucketOfP x = some .b30to50))),
    (.b50to80, xs.countP (fun x => decide (bucketOfP x = some .b50to80))),
    (.gt80, xs.countP (fun x => decide (bucketOfP x = some .gt80))) ]

/-! ### Source resolution and the fallback fetch (claims C5 and C7) -/

structure HttpResponse where
  status_code : Nat
  content : List Nat
deriving DecidableEq, Repr

/-- Lines 26-31: return the body on HTTP 200, otherwise None; no error is
raised and no failure record is produced. -/
def load_excel_from_github (response : HttpResponse) : Option (List Nat) :=
  if response.status_code = 200 then some response.content else none

/-- The user-visible events the page emits around contract-file loading. -/
inductive UiEvent where
  | sidebarInfo (msg : String)
  | sourceUnavailable (msg : String)
  | chart (name : String)
deriving DecidableEq, Repr

/-- Lines 50-58: the contract file is the upload when present, otherwise
the GitHub fallback result. -/
def resolveContractFile (uploaded : Option (List Nat)) (response : HttpResponse) :
    Option (List Nat) :=
  match uploaded with
  | some bytes => some bytes
  | none => load_excel_from_github response

/-- Lines 57-59 and 107: on the fallback path the page emits only the
default-file info message, and the whole contract section (line 107,
if contract_file:) is skipped silently when the file is None. The reachable
charts inside that section are the Gantt timeline (143-156) and the status
pie (286-293); no source-unavailable failure is ever constructed. -/
def renderContractSection (uploaded : Option (List Nat)) (response : HttpResponse) :
    List UiEvent :=
  let sourceEvents : List UiEvent :=
    match uploaded with
    | some _ => []
    | none => [UiEvent.sidebarInfo "Using default contract file from GitHub"]
  sourceEvents ++
    (match resolveContractFile uploaded response with
     | some _ => [UiEvent.chart "gantt", UiEvent.chart "status_pie"]
     | none => [])

/-- The session state carrying the contract-file fingerprint and upload
timestamp across renders (st.session_state). -/
structure SessionState where
  contract_file_hash : Option String
  contract_upload_time : Option Nat
deriving DecidableEq, Repr

/-- Lines 50-54: when the fingerprint of the uploaded bytes differs from
the stored one, store it and stamp datetime.now(); otherwise leave both the
fingerprint and the timestamp untouched. -/
def resolveUpload (st : SessionState) (file_hash : String) (now : Nat) :
    SessionState :=
  if st.contract_file_hash ≠ some file_hash then
    { contract_file_hash := some file_hash, contract_upload_time := some now }
  else st

/-! ### Theorems -/

/-- Claim C1: the claim asserts that the second definition of get_color
(financial branch) is syntactically well-formed so the module parses and
the pipeline stages execute. On line 313 the return is indented 4 spaces,
equal to the indentation of its def on line 312, so the def block
structure of the module is ill-formed: Python refuses to parse the file
and no stage ever runs. -/
theorem c1_second_get_color_ill_formed :
    defBlocksWellFormed moduleDefLines = false ∧
    defBlocksWellFormed [⟨312, 4, true⟩, ⟨313, 4, false⟩] = false := by
  decide

/-- Claim C2: for every input frame, the contract-branch build_kpi_bar
executes the trace loop, the layout update and return fig, and none of the
statements that follow the return at the same indentation (the
rename, the null filter, the derived columns, the sort, the top-5 split
and the three chart sections) are ever executed. -/
theorem c2_dead_code_after_return (df : List FinRow) :
    execTrace df buildKpiBarBody =
      [KpiStmt.loopAddTraces, KpiStmt.updateLayout, KpiStmt.retFig] ∧
    ∀ s ∈ [KpiStmt.renameValueCols, KpiStmt.filterNotNa,
        KpiStmt.computeRemaining, KpiStmt.clipLowerZero,
        KpiStmt.computeRealizedPct, KpiStmt.sortByValueDesc,
        KpiStmt.splitTopFive, KpiStmt.renderTopFiveChart,
        KpiStmt.renderOthersChart, KpiStmt.renderTimeBucketChart],
      s ∉ execTrace df buildKpiBarBody := by
  have h : execTrace df buildKpiBarBody =
      [KpiStmt.loopAddTraces, KpiStmt.updateLayout, KpiStmt.retFig] := rfl
  refine ⟨h, ?_⟩
  rw [h]
  decide

/-- Claim C2 witness: the chart-section statements are not in the executed
trace of a concrete call. -/
theorem c2_witness :
    KpiStmt.renderTopFiveChart ∉ execTrace [] buildKpiBarBody :=
  (c2_dead_code_after_return []).2 KpiStmt.renderTopFiveChart (by decide)

/-- Claim C3 counterexample: a record with contract_value = 0 and
realized_value = 10 gets realized_pct = +infinity from the unguarded
division on line 244 - not the null (NaN) marker the claim requires, and
explicitly an infinity the claim rules out. -/
theorem c3_counterexample :
    (mkChartRow 0 "B" 0 10).realized_pct = PFloat.inf ∧
    PFloat.inf.isNa = false := by
  decide

/-- Claim C3 (amended): for contract_value = 0 the realized percentage is
NaN when the clipped realization is 0 and +infinity when it is positive;
for contract_value < 0 it is a finite nonpositive rational. It is never
short-circuited to null before the division. -/
theorem c3_realized_pct_nonpos_value (label : Nat) (name : String) (cv rv : ℚ) :
    (cv = 0 → max rv 0 = 0 →
      (mkChartRow label name cv rv).realized_pct = PFloat.nan) ∧
    (cv = 0 → 0 < max rv 0 →
      (mkChartRow label name cv rv).realized_pct = PFloat.inf) ∧
    (cv < 0 → ∃ q : ℚ, q ≤ 0 ∧
      (mkChartRow label name cv rv).realized_pct = PFloat.fin q) := by
  refine ⟨?_, ?_, ?_⟩
  · intro h0 hm
    subst h0
    show (((PFloat.fin (max rv 0)).div (PFloat.fin 0)).mul100).round1 = PFloat.nan
    rw [hm]
    decide
  · intro h0 hm
    subst h0
    show (((PFloat.fin (max rv 0)).div (PFloat.fin 0)).mul100).round1 = PFloat.inf
    have h1 : (PFloat.fin (max rv 0)).div (PFloat.fin 0) = PFloat.inf := by
      simp [PFloat.div, hm.ne', hm]
    rw [h1]
    rfl
  · intro hneg
    have hne : cv ≠ 0 := ne_of_lt hneg
    have hnum : (0:ℚ) ≤ max rv 0 := le_max_right _ _
    have hq : max rv 0 / cv ≤ 0 :=
      div_nonpos_iff.mpr (Or.inl ⟨hnum, hneg.le⟩)
    refine ⟨((round ((max rv 0 / cv * 100) * 10) : ℤ) : ℚ) / 10, ?_, ?_⟩
    · have hx : (max rv 0 / cv * 100) * 10 ≤ 0 := by nlinarith
      have hr : round ((max rv 0 / cv * 100) * 10) ≤ 0 := by
        rw [round_eq]
        have h2 : (⌊(max rv 0 / cv * 100) * 10 + 1/2⌋ : ℤ) ≤ ⌊(1/2 : ℚ)⌋ :=
          Int.floor_le_floor (by linarith)
        have h3 : (⌊(1/2 : ℚ)⌋ : ℤ) = 0 := by norm_num
        omega
      have hcast : ((round ((max rv 0 / cv * 100) * 10) : ℤ) : ℚ) ≤ 0 := by
        exact_mod_cast hr
      linarith
    · have hdiv : (PFloat.fin (max rv 0)).div (PFloat.fin cv) =
          PFloat.fin (max rv 0 / cv) := by
        simp [PFloat.div, hne]
      show (((PFloat.fin (max rv 0)).div (PFloat.fin cv)).mul100).round1 = _
      rw [hdiv]
      rfl

/-- Claim C3 witness: the amended theorem applied at contract_value 0 and
realized value 10 evaluates to +infinity. -/
theorem c3_witness : (mkChartRow 0 "B" 0 10).realized_pct = PFloat.inf :=
  (c3_realized_pct_nonpos_value 0 "B" 0 10).2.1 rfl (by norm_num)

/-- Claim C4 counterexample: a record with start = end (non-null, day 100)
and today at day 200 gets TIME_GONE = 100, not null: the division by the
zero-length interval produces +infinity, which clip(0,1) maps to 1. -/
theorem c4_counterexample :
    timeGone 200 (some 100) (some 100) = PFloat.fin 100 ∧
    (PFloat.fin 100).isNa = false := by
  refine ⟨?_, rfl⟩
  norm_num [timeGone, PFloat.div, PFloat.clip01, PFloat.mul100]

/-- Claim C4 (amended): for non-null start = end there is no short-circuit;
the zero-length interval divides by a zero timedelta and TIME_GONE is 100
when today is past the endpoint, 0 when before it, and NaN only when today
equals it. -/
theorem c4_time_gone_zero_interval (today s : ℚ) :
    timeGone today (some s) (some s) =
      (if s < today then PFloat.fin 100
       else if today < s then PFloat.fin 0
       else PFloat.nan) := by
  show ((((PFloat.fin (today - s)).div (PFloat.fin (s - s)))).clip01).mul100 = _
  rw [sub_self]
  rcases lt_trichotomy s today with h | h | h
  · have hpos : 0 < today - s := sub_pos.mpr h
    have hd : (PFloat.fin (today - s)).div (PFloat.fin 0) = PFloat.inf := by
      simp [PFloat.div, hpos.ne', hpos]
    rw [hd, if_pos h]
    show PFloat.fin ((max 0 (min 1 1)) * 100) = PFloat.fin 100
    norm_num
  · subst h
    rw [sub_self]
    have hd : (PFloat.fin 0).div (PFloat.fin 0) = PFloat.nan := by decide
    rw [hd, if_neg (lt_irrefl s), if_neg (lt_irrefl s)]
    rfl
  · have hneg : today - s < 0 := sub_neg.mpr h
    have hd : (PFloat.fin (today - s)).div (PFloat.fin 0) = PFloat.ninf := by
      simp [PFloat.div, hneg.ne, not_lt_of_gt hneg]
    rw [hd, if_neg (not_lt_of_gt h), if_pos h]
    show PFloat.fin ((max 0 (min 1 0)) * 100) = PFloat.fin 0
    norm_num

/-- Claim C5 counterexample: with no upload and a 404 from the fallback
URL, the page emits only the default-file info message: zero charts, and
no source-unavailable failure of any kind is surfaced. -/
theorem c5_counterexample :
    renderContractSection none ⟨404, []⟩ =
      [UiEvent.sidebarInfo "Using default contract file from GitHub"] ∧
    load_excel_from_github ⟨404, []⟩ = none := by
  decide

/-- Claim C5 (amended): when the user supplies no file and the fallback
fetch returns any non-200 status, load_excel_from_github silently yields
None and the contract section is skipped: zero chart outputs, but the
failure is silently defaulted (only the routine info message is shown),
never surfaced as an explicit failure. -/
theorem c5_fetch_failure_is_silent (response : HttpResponse)
    (h : response.status_code ≠ 200) :
    load_excel_from_github response = none ∧
    renderContractSection none response =
      [UiEvent.sidebarInfo "Using default contract file from GitHub"] := by
  have hl : load_excel_from_github response = none := by
    simp [load_excel_from_github, h]
  refine ⟨hl, ?_⟩
  simp [renderContractSection, resolveContractFile, hl]

/-- Claim C5 witness: the amended theorem applied to a 404 response. -/
theorem c5_witness :
    load_excel_from_github ⟨404, []⟩ = none ∧
    renderContractSection none ⟨404, []⟩ =
      [UiEvent.sidebarInfo "Using default contract file from GitHub"] :=
  c5_fetch_failure_is_silent ⟨404, []⟩ (by decide)

/-- Claim C6 counterexample: a frame whose rows carry index labels 2 and 0
(just as rows do after the descending sort keeps original labels): the
first segment pair suppresses its legend and a later pair shows it, so
legend visibility does not go to the first pair in the sequence. -/
theorem c6_counterexample :
    (build_kpi_bar
        [⟨2, "A", 100, 50, 50, PFloat.fin 50⟩,
         ⟨0, "B", 80, 40, 40, PFloat.fin 50⟩]).map
      (fun seg => seg.showlegend) = [false, false, true, true] := by
  decide

/-- Claim C6 (amended): a segment pair has show_legend = true exactly when
the pandas index label of its row equals 0 (showlegend = (idx == 0) with
idx the iterrows label), independently of the pair position in the
sequence; it matches first-pair-only visibility only when the first row
happens to carry label 0. -/
theorem c6_showlegend_matches_label (rows : List ChartRow) :
    (build_kpi_bar rows).map (fun seg => seg.showlegend) =
      (rows.map (fun r => [r.label == 0, r.label == 0])).flatten := by
  simp only [build_kpi_bar, List.map_flatten, List.map_map]
  congr 1

/-- Claim C7: re-resolving with a fingerprint identical to the stored one
is the identity on the session state (the timestamp never advances), and a
fingerprint differing from the stored one stamps the supplied time. -/
theorem c7_fingerprint_idempotent (st : SessionState) (h : String)
    (t1 t2 : Nat) :
    resolveUpload (resolveUpload st h t1) h t2 = resolveUpload st h t1 ∧
    (st.contract_file_hash ≠ some h →
      (resolveUpload st h t1).contract_upload_time = some t1) ∧
    (st.contract_file_hash = some h → resolveUpload st h t1 = st) := by
  refine ⟨?_, fun hne => ?_, fun heq => ?_⟩
  · by_cases hc : st.contract_file_hash = some h
    · simp [resolveUpload, hc]
    · simp [resolveUpload, hc]
  · simp [resolveUpload, hne]
  · simp [resolveUpload, heq]

/-- Claim C7 witness: a changed fingerprint stamps the new time, and an
identical fingerprint leaves a concrete state untouched. -/
theorem c7_witness :
    (resolveUpload ⟨some "a", some 5⟩ "b" 7).contract_upload_time = some 7 ∧
    resolveUpload ⟨some "b", some 5⟩ "b" 7 = ⟨some "b", some 5⟩ :=
  ⟨(c7_fingerprint_idempotent ⟨some "a", some 5⟩ "b" 7 9).2.1 (by decide),
   (c7_fingerprint_idempotent ⟨some "b", some 5⟩ "b" 7 9).2.2 rfl⟩

/-- Claim C8: the derived REMAINING column is max(CONTRACT_VALUE -
REALIZATION, 0): always nonnegative, and exactly 0 whenever the realized
value exceeds the contract value. -/
theorem c8_remaining_nonneg (label : Nat) (name : String) (cv rv : ℚ) :
    0 ≤ (mkChartRow label name cv rv).remaining ∧
    (cv < rv → (mkChartRow label name cv rv).remaining = 0) := by
  constructor
  · exact le_max_right _ _
  · intro h
    have hle : cv - rv ≤ 0 := by linarith
    show max (cv - rv) 0 = 0
    exact max_eq_right hle

/-- Claim C8 witness: realized 150 against a contract of 100 leaves a
remaining value of exactly 0. -/
theorem c8_witness : (mkChartRow 0 "A" 100 150).remaining = 0 :=
  (c8_remaining_nonneg 0 "A" 100 150).2 (by norm_num)

/-- The derivation map succeeds on exactly the rows that pass the line-241
null filter, so both give lists of the same length. -/
theorem length_filterMap_toChartRow (rows : List FinRow) :
    (rows.filterMap toChartRow).length = (eligible rows).length := by
  induction rows with
  | nil => rfl
  | cons r rs ih =>
      rcases hcv : r.contract_value with _ | cv <;>
        rcases hrv : r.realization with _ | rv <;>
          simp [toChartRow, eligible, List.filterMap_cons, List.filter_cons,
            hcv, hrv] <;>
          simpa [eligible] using ih

/-- Claim C9: df_chart keeps exactly the rows with non-null CONTRACT_VALUE
and REALIZATION, sorted descending by CONTRACT_VALUE; top5 is its first
min(5, count(eligible)) records and others is the rest of the same sorted
sequence. -/
theorem c9_top5_partition (rows : List FinRow) :
    (top5 rows).length = min 5 (eligible rows).length ∧
    top5 rows ++ others rows = df_chart rows ∧
    (df_chart rows).Perm (rows.filterMap toChartRow) ∧
    List.Sorted cvDesc (df_chart rows) ∧
    (df_chart rows).length = (eligible rows).length := by
  have hperm : (df_chart rows).Perm (rows.filterMap toChartRow) :=
    List.perm_insertionSort cvDesc _
  have hlen : (df_chart rows).length = (eligible rows).length := by
    rw [hperm.length_eq, length_filterMap_toChartRow]
  refine ⟨?_, List.take_append_drop 5 _, hperm,
    List.sorted_insertionSort cvDesc _, hlen⟩
  show ((df_chart rows).take 5).length = _
  rw [List.length_take, hlen]

/-- Claim C10: the four time-elapsed buckets are exactly the right-closed
intervals (-1,30], (30,50], (50,80], (80,100]; the boundary values 30, 50
and 80 fall in the lower bucket and values just above them in the upper
one; and the bucket-count output always lists all four buckets in order,
zero counts included. -/
theorem c10_bucket_boundaries :
    (∀ q : ℚ,
      (bucketOf q = some TimeBucket.lt30 ↔ (-1 < q ∧ q ≤ 30)) ∧
      (bucketOf q = some TimeBucket.b30to50 ↔ (30 < q ∧ q ≤ 50)) ∧
      (bucketOf q = some TimeBucket.b50to80 ↔ (50 < q ∧ q ≤ 80)) ∧
      (bucketOf q = some TimeBucket.gt80 ↔ (80 < q ∧ q ≤ 100))) ∧
    (∀ xs : List PFloat, (bucketCounts xs).map Prod.fst =
      [TimeBucket.lt30, TimeBucket.b30to50, TimeBucket.b50to80,
       TimeBucket.gt80]) ∧
    bucketOf 30 = some TimeBucket.lt30 ∧
    bucketOf (3001/100) = some TimeBucket.b30to50 ∧
    bucketOf 50 = some TimeBucket.b30to50 ∧
    bucketOf (5001/100) = some TimeBucket.b50to80 ∧
    bucketOf 80 = some TimeBucket.b50to80 ∧
    bucketOf (8001/100) = some TimeBucket.gt80 := by
  refine ⟨?_, fun xs => rfl, ?_, ?_, ?_, ?_, ?_, ?_⟩
  · intro q
    unfold bucketOf
    split_ifs with h1 h2 h3 h4
    · refine ⟨by simp [h1], ?_, ?_, ?_⟩ <;>
        exact ⟨fun hx => absurd hx (by decide),
          fun hx => by exfalso; linarith [hx.1, hx.2, h1.1, h1.2]⟩
    · refine ⟨?_, by simp [h2], ?_, ?_⟩ <;>
        exact ⟨fun hx => absurd hx (by decide),
          fun hx => by exfalso; linarith [hx.1, hx.2, h2.1, h2.2]⟩
    · refine ⟨?_, ?_, by simp [h3], ?_⟩ <;>
        exact ⟨fun hx => absurd hx (by decide),
          fun hx => by exfalso; linarith [hx.1, hx.2, h3.1, h3.2]⟩
    · refine ⟨?_, ?_, ?_, by simp [h4]⟩ <;>
        exact ⟨fun hx => absurd hx (by decide),
          fun hx => by exfalso; linarith [hx.1, hx.2, h4.1, h4.2]⟩
    · exact ⟨⟨fun hx => absurd hx (by decide), fun hx => absurd hx h1⟩,
        ⟨fun hx => absurd hx (by decide), fun hx => absurd hx h2⟩,
        ⟨fun hx => absurd hx (by decide), fun hx => absurd hx h3⟩,
        ⟨fun hx => absurd hx (by decide), fun hx => absurd hx h4⟩⟩
  · norm_num [bucketOf]
  · norm_num [bucketOf]
  · norm_num [bucketOf]
  · norm_num [bucketOf]
  · norm_num [bucketOf]
  · norm_num [bucketOf]
